import Mathlib

/-!
# Verification of the SEO crawler / prospect-scoring core

Shallow embedding of `Scripts/seo_auditor.py` (BFS crawl, signal extraction,
post-crawl aggregation) and of the scoring function
`create_prospect_scoring_v2` from `Scripts/prospect_analyzer.py`.

Modelling conventions:
* HTML parsing (BeautifulSoup) is abstracted: a fetched page is a record of
  the extractor outputs the crawl loop reads (title text, meta/H1/canonical
  booleans, visible-text words, `<time>` tag strings, JSON-LD script texts,
  nav-blog detection result, raw hrefs, cleaned internal links).  All string
  processing performed by the Python code itself (the `DATE_PATTERN` regex,
  substring membership, lowercasing, date parsing, URL path splitting) is
  embedded concretely.
* Python `datetime` values are embedded as Gregorian day numbers (`Int`);
  `timedelta.days` between two midnight datetimes equals the difference of
  day numbers.  "now" is a day-number parameter.
* Python floats are embedded as `Rat`; `round` is round-half-to-even.
* The network is a function `Web : String → Option Fetched`
  (`none` models any transport error of `_safe_get`).
* The `while` loop of `audit_site` is driven by explicit fuel; all theorems
  about it hold for every fuel value, hence at every intermediate and final
  crawl state.
-/

namespace Prospection

/-- ASCII digit test, modelling the regex class `\d` on the ASCII inputs
handled by the crawler. -/
def isDig (c : Char) : Bool := '0' ≤ c && c ≤ '9'

/-- Separator class (dash or slash) of `DATE_PATTERN`. -/
def isSep (c : Char) : Bool := c == '-' || c == '/'

/-- Month alternation `(0[1-9]|1[0-2])` of `DATE_PATTERN`. -/
def monthOk (a b : Char) : Bool :=
  (a == '0' && '1' ≤ b && b ≤ '9') || (a == '1' && (b == '0' || b == '1' || b == '2'))

/-- Day alternation (01..09, 10..29, 30..31) of `DATE_PATTERN`. -/
def dayOk (a b : Char) : Bool :=
  (a == '0' && '1' ≤ b && b ≤ '9') || ((a == '1' || a == '2') && isDig b)
    || (a == '3' && (b == '0' || b == '1'))

/-- Whether a 10-character window matches `DATE_PATTERN`: year `20[12]\d`,
separator (dash or slash), month `01..12`, separator, day `01..31`; each of
the two separators is checked independently. -/
def windowOk : List Char → Bool
  | [c0, c1, c2, c3, s1, m1, m2, s2, d1, d2] =>
      c0 == '2' && c1 == '0' && (c2 == '1' || c2 == '2') && isDig c3 && isSep s1
        && monthOk m1 m2 && isSep s2 && dayOk d1 d2
  | _ => false

/-- Attempt to match `DATE_PATTERN` at the current position (the pattern has
fixed length 10, so a position matches iff its 10-character window does). -/
def dateAt (l : List Char) : Option (List Char) :=
  let w := l.take 10
  if windowOk w then some w else none

/-- Leftmost match of `DATE_PATTERN`, i.e. `re.search` for this pattern. -/
def searchDateList : List Char → Option (List Char)
  | [] => none
  | c :: rest =>
    match dateAt (c :: rest) with
    | some m => some m
    | none => searchDateList rest

/-- Model of `DATE_PATTERN.search(s)` returning `match.group()`. -/
def searchDate (s : String) : Option String :=
  (searchDateList s.data).map (fun l => String.mk l)

/-- Leftmost index of `needle` in `hay`, i.e. Python `str.find` (as `Option`). -/
def findSub? (needle : List Char) : List Char → Option Nat
  | [] => if needle.isEmpty then some 0 else none
  | c :: rest =>
    if needle.isPrefixOf (c :: rest) then some 0
    else (findSub? needle rest).map (· + 1)

/-- Python `needle in hay` substring test. -/
def strContains (hay : String) (needle : String) : Bool :=
  (findSub? needle.data hay.data).isSome

/-- Python `s.startswith(pre)`. -/
def strStarts (s : String) (pre : String) : Bool :=
  pre.data.isPrefixOf s.data

/-- ASCII lowering of one character (Python `str.lower` restricted to the
ASCII letters appearing in the crawler's patterns; other characters are kept). -/
def lowChar (c : Char) : Char :=
  if 'A' ≤ c && c ≤ 'Z' then Char.ofNat (c.toNat + 32) else c

/-- Python `s.lower()`. -/
def strLower (s : String) : String := String.mk (s.data.map lowChar)

/-- Python `s.rstrip("/")`: drop every trailing `'/'`. -/
def rstripSlash (s : String) : String :=
  String.mk (s.data.reverse.dropWhile (fun c => c == '/')).reverse

/-- Python `s.strip()` (default whitespace). -/
def strStrip (s : String) : String :=
  String.mk (((s.data.dropWhile Char.isWhitespace).reverse.dropWhile
    Char.isWhitespace).reverse)

/-- Python `s.split("-")` (no run merging, keeps empty pieces). -/
def splitDashAux (cur : List Char) : List Char → List (List Char)
  | [] => [cur.reverse]
  | c :: rest =>
    if c == '-' then cur.reverse :: splitDashAux [] rest
    else splitDashAux (c :: cur) rest

def splitDash (l : List Char) : List (List Char) := splitDashAux [] l

/-- Numeric value of a nonempty all-digit string. -/
def digitsVal? (l : List Char) : Option Nat :=
  if !l.isEmpty && l.all isDig then
    some (l.foldl (fun n c => n * 10 + (c.toNat - '0'.toNat)) 0)
  else none

/-- Gregorian leap year. -/
def isLeap (y : Nat) : Bool := (y % 4 == 0 && y % 100 != 0) || y % 400 == 0

/-- Length of a month, as validated by `datetime.strptime`. -/
def daysInMonth (y m : Nat) : Nat :=
  if m == 2 then (if isLeap y then 29 else 28)
  else if m == 4 || m == 6 || m == 9 || m == 11 then 30
  else 31

/-- Day number of a Gregorian calendar date (days since 0000-03-01); date
differences of `datetime` values are differences of day numbers. -/
def dayNumber (y m d : Nat) : Int :=
  let mm := (m + 9) % 12
  let yy := y - mm / 10
  ((365 * yy + yy / 4 - yy / 100 + yy / 400 + (mm * 306 + 5) / 10 + (d - 1) : Nat) : Int)

/-- Model of `_parse_date`: replace `'/'` by `'-'`, then `datetime.strptime(s, "%Y-%m-%d")`,
`none` on failure.  `strptime` is modelled on the dash-separated numeric
shape: three nonempty digit groups, month in 1..12 and day valid for the
(leap-aware) month, year in `datetime`'s 1..9999 range. -/
def parseDate (s : String) : Option Int :=
  let t := s.data.map (fun c => if c == '/' then '-' else c)
  match splitDash t with
  | [ys, ms, ds] =>
    match digitsVal? ys, digitsVal? ms, digitsVal? ds with
    | some y, some m, some d =>
      if 1 ≤ y && y ≤ 9999 && 1 ≤ m && m ≤ 12 && 1 ≤ d && d ≤ daysInMonth y m then
        some (dayNumber y m d)
      else none
    | _, _, _ => none
  | _ => none

/-- Constant `BLOG_URL_PATTERNS` from `seo_auditor.py`. -/
def BLOG_URL_PATTERNS : List String :=
  ["/blog", "/actualites", "/actualite", "/fil-dactualite", "/fil-actualite",
   "/news", "/articles", "/article", "/journal", "/mag", "/magazine",
   "/ressources", "/publications", "/posts", "/edito", "/chroniques",
   "/insights", "/presse", "/communiques", "/breves", "/dossiers", "/tribunes"]

/-- Constant `CMS_SIGNATURES` from `seo_auditor.py` (insertion-ordered dict as list). -/
def CMS_SIGNATURES : List (String × List String) :=
  [("WordPress", ["wp-content", "wp-includes", "wp-json", "/wp-admin",
      "meta name=\"generator\" content=\"WordPress"]),
   ("Wix", ["wix.com", "X-Wix-", "_wix_browser_sess", "static.wixstatic.com"]),
   ("Shopify", ["cdn.shopify.com", "Shopify.theme", "myshopify.com"]),
   ("Prestashop", ["PrestaShop", "prestashop", "/modules/ps_"]),
   ("Webflow", ["webflow.com", "Webflow", "assets.website-files.com"]),
   ("Squarespace", ["squarespace.com", "static1.squarespace.com", "Squarespace"]),
   ("Joomla", ["Joomla!", "/media/jui/", "/components/com_"]),
   ("Drupal", ["Drupal", "/sites/default/files/", "drupal.js"])]

/-- Constant `EXCLUDED_FROM_EMPTY_COUNT` from `seo_auditor.py`. -/
def EXCLUDED_FROM_EMPTY_COUNT : List String :=
  ["/contact", "/mentions-legales", "/mentions_legales",
   "/cgv", "/cgu", "/privacy", "/politique",
   "/politique-de-confidentialite", "/login", "/connexion"]

/-- Model of `_detect_cms`: first CMS in table order any of whose literal signatures
occurs in the raw HTML. -/
def detect_cms (html : String) : Option String :=
  CMS_SIGNATURES.findSome? (fun pr =>
    if pr.2.any (fun sig => strContains html sig) then some pr.1 else none)

/-- Abstraction of one parsed page: the outputs of the BeautifulSoup-based
extractors that `audit_site` reads.  Date-bearing strings (`<time>` tag
values, JSON-LD script texts), raw hrefs and cleaned internal links are kept
as data so that the crawler's own string processing is embedded concretely. -/
structure PageData where
  /-- `get_text(strip=True)` of the first `<title>` tag, `""` if absent. -/
  title : String
  /-- a `name=description` meta tag with non-blank content is present. -/
  metaDescOk : Bool
  /-- number of `<h1>` tags. -/
  h1Count : Nat
  /-- a `rel=canonical` link is present. -/
  hasCanonical : Bool
  /-- a robots meta tag whose content contains "noindex". -/
  noindex : Bool
  /-- `_extract_text_words(soup)`. -/
  words : List String
  /-- per `<time>` tag, its `datetime` attribute if non-empty else its text. -/
  timeTags : List String
  /-- per JSON-LD script tag, its text. -/
  jsonLdBlocks : List String
  /-- `_detect_blog_in_nav(soup, current_url)` result. -/
  navBlog : Option String
  /-- `_detect_rss(soup)` result. -/
  hasRssLink : Bool
  /-- `_get_internal_links(soup, current_url, base_domain)` result. -/
  links : List String
  /-- raw `href` attributes of all `<a href>` tags (for blog verification). -/
  hrefs : List String
deriving DecidableEq

/-- Outcome of a successful `requests.get` (no transport error). -/
structure Fetched where
  status : Nat
  /-- "text/html" occurs in the Content-Type header. -/
  contentTypeHtml : Bool
  /-- raw body `resp.text`. -/
  text : String
  page : PageData
deriving DecidableEq

/-- The network: `none` is any `_safe_get` transport error. -/
abbrev Web := String → Option Fetched

/-- Model of `_extract_dates(soup, url)`: date strings from `<time>` tags, JSON-LD
`datePublished` and `dateModified` fields (searched in a 50-character slice
after the field name), and the URL itself, in that order. -/
def extract_dates (p : PageData) (url : String) : List String :=
  let timeDates := p.timeTags.filterMap searchDate
  let jsonDates :=
    (p.jsonLdBlocks.map (fun text =>
      (["datePublished", "dateModified"].filterMap (fun field =>
        match findSub? field.data text.data with
        | some idx => searchDate (String.mk ((text.data.drop idx).take 50))
        | none => none)))).flatten
  let urlDates :=
    match searchDate url with
    | some m => [m]
    | none => []
  timeDates ++ jsonDates ++ urlDates

/-- Generic leftmost scan: does some suffix position satisfy `p`? -/
def scanAny (p : List Char → Bool) : List Char → Bool
  | [] => p []
  | c :: rest => p (c :: rest) || scanAny p rest

/-- Head-position match of the regex `/20\d{2}/`. -/
def yearSegAt : List Char → Bool
  | '/' :: '2' :: '0' :: a :: b :: '/' :: _ => isDig a && isDig b
  | _ => false

/-- Separator (dash or slash) at the head position. -/
def sepAt : List Char → Bool
  | c :: _ => c == '-' || c == '/'
  | [] => false

/-- After one of the article words: optional `s`, then a separator. -/
def sTailOk (l : List Char) : Bool :=
  sepAt l || (match l with
              | 's' :: t => sepAt t
              | _ => false)

/-- Head-position match of the regex `/(article|post|billet|actu)s?` followed
by a separator. -/
def articleWordAt (l : List Char) : Bool :=
  match l with
  | '/' :: rest =>
    (["article", "post", "billet", "actu"].any (fun w =>
      w.data.isPrefixOf rest && sTailOk (rest.drop w.length)))
  | _ => false

/-- Head-position match of the regex `-\d{4}-\d{2}-\d{2}`. -/
def dashDateAt : List Char → Bool
  | '-' :: a :: b :: c :: d :: '-' :: e :: f :: '-' :: g :: h :: _ =>
    isDig a && isDig b && isDig c && isDig d && isDig e && isDig f && isDig g && isDig h
  | _ => false

/-- One href "looks like an article" for `_verify_blog_has_content`
(the three `re.search` tests, on the lowercased href). -/
def isArticleHref (href : String) : Bool :=
  let h := (strLower href).data
  scanAny yearSegAt h || scanAny articleWordAt h || scanAny dashDateAt h

/-- Model of `_verify_blog_has_content(blog_url)`: fetch the candidate; require
status 200; then at least 2 extracted dates, or at least 2 article-shaped
links. -/
def verify_blog_has_content (web : Web) (blogUrl : String) : Bool :=
  match web blogUrl with
  | none => false
  | some f =>
    if f.status == 200 then
      if 2 ≤ (extract_dates f.page blogUrl).length then true
      else 2 ≤ f.page.hrefs.countP isArticleHref
    else false

/-- Pairwise differences of consecutive list elements. -/
def pairGaps : List Int → List Int
  | a :: b :: t => (b - a) :: pairGaps (b :: t)
  | _ => []

/-- The intervals kept by `_compute_publication_frequency`: positive gaps
between consecutive elements of the sorted date list. -/
def posIntervals (dates : List Int) : List Int :=
  (pairGaps (List.insertionSort (fun a b : Int => a ≤ b) dates)).filter
    (fun g => decide (0 < g))

/-- Model of `_compute_publication_frequency(dates_parsed)`. -/
def compute_publication_frequency (dates : List Int) : Option String :=
  if dates.length < 2 then none
  else
    let intervals := posIntervals dates
    if intervals.isEmpty then none
    else
      let avg : Rat := (intervals.sum : Rat) / (intervals.length : Rat)
      some (if avg ≤ 14 then "hebdomadaire"
            else if avg ≤ 45 then "mensuelle"
            else if avg ≤ 100 then "trimestrielle"
            else "rare")

/-- Round half to even to an integer (Python `round`). -/
def pyRound (q : Rat) : Int :=
  let f := q.floor
  let r := q - (f : Rat)
  if r < 1/2 then f
  else if 1/2 < r then f + 1
  else if f % 2 = 0 then f else f + 1

/-- Python `round(x, 1)`. -/
def pyRound1 (q : Rat) : Rat := (pyRound (q * 10) : Rat) / 10

/-- Python `round(x, 2)`. -/
def pyRound2 (q : Rat) : Rat := (pyRound (q * 100) : Rat) / 100

/-- Python `max` of a nonempty list (`0` backstop for `[]`, never used). -/
def maxOfList : List Int → Int
  | [] => 0
  | x :: xs => xs.foldl max x

/-- Python `url if url.startswith("http") else "https://" + url`. -/
def ensureHttp (url : String) : String :=
  if strStarts url "http" then url else "https://" ++ url

/-- The start URL (scheme and netloc) of `urlparse(url)`. -/
def schemeHost (url : String) : String :=
  match findSub? "://".data url.data with
  | some i =>
    let scheme := url.data.take i
    let host := (url.data.drop (i + 3)).takeWhile
      (fun c => !(c == '/') && !(c == '?') && !(c == '#'))
    String.mk (scheme ++ "://".data ++ host)
  | none => "://"

/-- Python `urlparse(url).path`. -/
def urlPath (url : String) : String :=
  match findSub? "://".data url.data with
  | some i =>
    let afterHost := (url.data.drop (i + 3)).dropWhile
      (fun c => !(c == '/') && !(c == '?') && !(c == '#'))
    String.mk (afterHost.takeWhile (fun c => !(c == '?') && !(c == '#')))
  | none => String.mk (url.data.takeWhile (fun c => !(c == '?') && !(c == '#')))

/-- The structural-page test guarding `pages_vides`:
`urlparse(current_url).path.lower().rstrip("/")` equals, or extends with a
slash, one of `EXCLUDED_FROM_EMPTY_COUNT`. -/
def isStructuralUrl (url : String) : Bool :=
  let path := rstripSlash (strLower (urlPath url))
  EXCLUDED_FROM_EMPTY_COUNT.any (fun p => path == p || strStarts path (p ++ "/"))

/-- The crawl-local mutable state of `audit_site`'s BFS loop: the visited
set, the FIFO frontier, the per-crawl accumulators, and the result-dict
counters mutated inside the loop.  `fetchSeq` records every dequeued URL
(each one triggers exactly one `_safe_get`), for the no-refetch invariant. -/
structure Accum where
  visited : List String
  queue : List (String × Nat)
  fetchSeq : List String
  pagesCrawled : Nat
  profondeurMax : Nat
  allTitles : List String
  allDates : List String
  blogDates : List String
  navBlogCandidate : Option String
  totalWords : Nat
  totalHtmlBytes : Nat
  totalTextBytes : Nat
  cmsDetected : Option String
  hasBlog : Bool
  blogUrl : Option String
  hasRss : Bool
  pagesSansTitle : Nat
  pagesTitleCourt : Nat
  pagesSansMetaDesc : Nat
  pagesSansH1 : Nat
  pagesH1Multiple : Nat
  pagesSansCanonical : Nat
  pagesNoindex : Nat
  pagesVides : Nat
deriving DecidableEq

/-- The link-expansion `for` loop: enqueue each internal link not already
visited, adding it to the visited set at once. -/
def enqueueLinks (dep : Nat) : List String → List String × List (String × Nat) →
    List String × List (String × Nat)
  | [], vq => vq
  | link :: rest, (v, q) =>
    if link ∈ v then enqueueLinks dep rest (v, q)
    else enqueueLinks dep rest (v ++ [link], q ++ [(link, dep)])

/-- Loop body for a dequeued URL whose fetch failed, returned a non-200
status, or was not HTML: only the dequeue (and the issued GET) happened. -/
def skipPage (u : String) (rest : List (String × Nat)) (st : Accum) : Accum :=
  { st with queue := rest, fetchSeq := st.fetchSeq ++ [u] }

/-- Loop body for a successfully fetched HTML page: all accumulator and
result-counter updates of `audit_site`'s loop, then (budget permitting)
frontier expansion. -/
def processPage (maxPages : Nat) (u : String) (d : Nat) (f : Fetched)
    (rest : List (String × Nat)) (st : Accum) : Accum :=
  let p := f.page
  let html := f.text
  let pc := st.pagesCrawled + 1
  let pageDates := extract_dates p u
  let isBlogPage := BLOG_URL_PATTERNS.any (fun pat => strContains (strLower u) pat)
  let vq := if pc < maxPages then enqueueLinks (d + 1) p.links (st.visited, rest)
            else (st.visited, rest)
  { visited := vq.1
    queue := vq.2
    fetchSeq := st.fetchSeq ++ [u]
    pagesCrawled := pc
    profondeurMax := if d > st.profondeurMax then d else st.profondeurMax
    allTitles := st.allTitles ++ [p.title]
    allDates := st.allDates ++ pageDates
    blogDates := if isBlogPage then st.blogDates ++ pageDates else st.blogDates
    navBlogCandidate :=
      match st.navBlogCandidate with
      | some c => some c
      | none => p.navBlog
    totalWords := st.totalWords + p.words.length
    totalHtmlBytes := st.totalHtmlBytes + html.utf8ByteSize
    totalTextBytes := st.totalTextBytes + (String.intercalate " " p.words).utf8ByteSize
    cmsDetected :=
      match st.cmsDetected with
      | some c => some c
      | none => detect_cms html
    hasBlog := st.hasBlog || isBlogPage
    blogUrl := if isBlogPage && !st.hasBlog then some u else st.blogUrl
    hasRss := st.hasRss || p.hasRssLink
    pagesSansTitle := st.pagesSansTitle + (if p.title == "" then 1 else 0)
    pagesTitleCourt :=
      st.pagesTitleCourt + (if !(p.title == "") && p.title.length < 20 then 1 else 0)
    pagesSansMetaDesc := st.pagesSansMetaDesc + (if p.metaDescOk then 0 else 1)
    pagesSansH1 := st.pagesSansH1 + (if p.h1Count == 0 then 1 else 0)
    pagesH1Multiple := st.pagesH1Multiple + (if 1 < p.h1Count then 1 else 0)
    pagesSansCanonical := st.pagesSansCanonical + (if p.hasCanonical then 0 else 1)
    pagesNoindex := st.pagesNoindex + (if p.noindex then 1 else 0)
    pagesVides :=
      st.pagesVides + (if p.words.length < 50 && !isStructuralUrl u then 1 else 0) }

/-- The loop `while queue and pages_crawled < max_pages`, with explicit fuel. -/
def crawlLoop (web : Web) (maxPages : Nat) : Nat → Accum → Accum
  | 0, st => st
  | Nat.succ fuel, st =>
    match st.queue with
    | [] => st
    | (u, d) :: rest =>
      if st.pagesCrawled < maxPages then
        match web u with
        | none => crawlLoop web maxPages fuel (skipPage u rest st)
        | some f =>
          if f.status == 200 && f.contentTypeHtml then
            crawlLoop web maxPages fuel (processPage maxPages u d f rest st)
          else crawlLoop web maxPages fuel (skipPage u rest st)
      else st

/-- BFS initial state: the rstripped entry URL enqueued at depth 0 and marked
visited; every accumulator empty or zero. -/
def initAccum (url : String) : Accum :=
  let u := rstripSlash url
  { visited := [u], queue := [(u, 0)], fetchSeq := [], pagesCrawled := 0,
    profondeurMax := 0, allTitles := [], allDates := [], blogDates := [],
    navBlogCandidate := none, totalWords := 0, totalHtmlBytes := 0,
    totalTextBytes := 0, cmsDetected := none, hasBlog := false, blogUrl := none,
    hasRss := false, pagesSansTitle := 0, pagesTitleCourt := 0,
    pagesSansMetaDesc := 0, pagesSansH1 := 0, pagesH1Multiple := 0,
    pagesSansCanonical := 0, pagesNoindex := 0, pagesVides := 0 }

/-- The result dictionary of `audit_site`.  Date-valued string fields
(`strftime("%Y-%m-%d")` outputs) are kept as day numbers, an invertible
recoding on valid dates. -/
structure AuditResult where
  nbPages : Nat
  profondeurMax : Nat
  hasSitemap : Bool
  hasBlog : Bool
  blogUrl : Option String
  hasRss : Bool
  blogStatus : String
  derniereMajBlog : Option Int
  frequencePublication : Option String
  derniereDate : Option Int
  activiteStatus : String
  pagesSansTitle : Nat
  pagesTitleCourt : Nat
  titlesDupliques : Rat
  pagesSansMetaDesc : Nat
  pagesSansH1 : Nat
  pagesH1Multiple : Nat
  pagesSansCanonical : Nat
  hasRobotsTxt : Bool
  pagesNoindex : Nat
  motsMoyenParPage : Int
  pagesVides : Nat
  ratioTexteHtml : Rat
  cmsDetecte : Option String
  auditErreur : Option String
deriving DecidableEq

/-- The result dictionary exactly as initialized at the top of `audit_site`. -/
def initResult : AuditResult :=
  { nbPages := 0, profondeurMax := 0, hasSitemap := false, hasBlog := false,
    blogUrl := none, hasRss := false, blogStatus := "absent",
    derniereMajBlog := none, frequencePublication := none, derniereDate := none,
    activiteStatus := "inconnu", pagesSansTitle := 0, pagesTitleCourt := 0,
    titlesDupliques := 0, pagesSansMetaDesc := 0, pagesSansH1 := 0,
    pagesH1Multiple := 0, pagesSansCanonical := 0, hasRobotsTxt := false,
    pagesNoindex := 0, motsMoyenParPage := 0, pagesVides := 0,
    ratioTexteHtml := 0, cmsDetecte := none, auditErreur := none }

/-- The two post-crawl blog fallbacks of `audit_site`: 1. scan the visited
set for a blog URL pattern; 2. if still nothing and a nav candidate was
recorded, re-fetch it and trust it only if `_verify_blog_has_content`
succeeds.  Returns the final `(has_blog, blog_url)`. -/
def applyBlogFallbacks (web : Web) (st : Accum) : Bool × Option String :=
  let s1 : Bool × Option String :=
    if st.hasBlog then (st.hasBlog, st.blogUrl)
    else
      match st.visited.find? (fun v =>
        BLOG_URL_PATTERNS.any (fun pat => strContains (strLower v) pat)) with
      | some v => (true, some v)
      | none => (st.hasBlog, st.blogUrl)
  if s1.1 then s1
  else
    match st.navBlogCandidate with
    | some c => if verify_blog_has_content web c then (true, some c) else s1
    | none => s1

/-- The blog-activity section of `audit_site`: status, last blog date and
publication frequency from dates collected on blog-flagged pages. -/
def computeBlogStatus (now : Int) (hasBlog : Bool) (blogDates : List String) :
    String × Option Int × Option String :=
  if blogDates.isEmpty then ((if hasBlog then "présent" else "absent"), none, none)
  else
    let parsedBlog := blogDates.filterMap parseDate
    if parsedBlog.isEmpty then ((if hasBlog then "présent" else "absent"), none, none)
    else
      let latest := maxOfList parsedBlog
      let ds := now - latest
      ((if ds < 365 then "actif" else if ds < 730 then "semi-actif" else "abandonné"),
       some latest, compute_publication_frequency parsedBlog)

/-- The global-activity section of `audit_site`: "actif" only from dated
blog posts; the all-dates fallback is capped at "semi-actif". -/
def computeActivity (now : Int) (hasBlog : Bool) (blogDates allDates : List String) :
    String × Option Int :=
  let parsedBlogActivity := if blogDates.isEmpty then [] else blogDates.filterMap parseDate
  let parsedAll := if allDates.isEmpty then [] else allDates.filterMap parseDate
  if hasBlog && !parsedBlogActivity.isEmpty then
    let latest := maxOfList parsedBlogActivity
    let ds := now - latest
    ((if ds < 365 then "actif" else if ds < 730 then "semi-actif" else "abandonné"),
     some latest)
  else if !parsedAll.isEmpty then
    let latest := maxOfList parsedAll
    ((if now - latest < 730 then "semi-actif" else "abandonné"), some latest)
  else ("inconnu", none)

/-- Duplicate-title ratio: `(len - len(set)) / len` over non-empty titles,
rounded to 2 decimals; `0` (the dict default) if no non-empty title. -/
def dupTitleShare (allTitles : List String) : Rat :=
  let nonEmpty := allTitles.filter (fun t => !(t == ""))
  if nonEmpty.isEmpty then 0
  else pyRound2 (((nonEmpty.length - nonEmpty.dedup.length : Nat) : Rat) /
    (nonEmpty.length : Rat))

/-- The post-processing section of `audit_site` (after a crawl that fetched
at least one page): blog fallbacks, blog status, ratios, global activity.
Note the nav-blog fallback re-fetches over `web`. -/
def postCrawl (web : Web) (now : Int) (robots sitemap : Bool) (st : Accum) :
    AuditResult :=
  let hb := applyBlogFallbacks web st
  let bs := computeBlogStatus now hb.1 st.blogDates
  let act := computeActivity now hb.1 st.blogDates st.allDates
  { nbPages := st.pagesCrawled
    profondeurMax := st.profondeurMax
    hasSitemap := sitemap
    hasBlog := hb.1
    blogUrl := hb.2
    hasRss := st.hasRss
    blogStatus := bs.1
    derniereMajBlog := bs.2.1
    frequencePublication := bs.2.2
    derniereDate := act.2
    activiteStatus := act.1
    pagesSansTitle := st.pagesSansTitle
    pagesTitleCourt := st.pagesTitleCourt
    titlesDupliques := dupTitleShare st.allTitles
    pagesSansMetaDesc := st.pagesSansMetaDesc
    pagesSansH1 := st.pagesSansH1
    pagesH1Multiple := st.pagesH1Multiple
    pagesSansCanonical := st.pagesSansCanonical
    hasRobotsTxt := robots
    pagesNoindex := st.pagesNoindex
    motsMoyenParPage := pyRound ((st.totalWords : Rat) / (st.pagesCrawled : Rat))
    pagesVides := st.pagesVides
    ratioTexteHtml :=
      if 0 < st.totalHtmlBytes then
        pyRound2 ((st.totalTextBytes : Rat) / (st.totalHtmlBytes : Rat))
      else 0
    cmsDetecte := st.cmsDetected
    auditErreur := none }

/-- robots.txt probe: status 200 and "user-agent" in the lowercased body. -/
def checkRobots (web : Web) (startUrl : String) : Bool :=
  match web (startUrl ++ "/robots.txt") with
  | some f => f.status == 200 && strContains (strLower f.text) "user-agent"
  | none => false

/-- sitemap.xml probe: status 200 and "<urlset" in the lowercased body. -/
def checkSitemap (web : Web) (startUrl : String) : Bool :=
  match web (startUrl ++ "/sitemap.xml") with
  | some f => f.status == 200 && strContains (strLower f.text) "<urlset"
  | none => false

/-- Model of `audit_site(url, max_pages)`: normalize the URL, probe robots.txt and
sitemap.xml out-of-band, run the budgeted BFS, and either return the error
result (zero pages fetched) or aggregate. -/
def audit_site (web : Web) (url : String) (maxPages : Nat) (now : Int)
    (fuel : Nat) : AuditResult :=
  let url2 := ensureHttp url
  let startUrl := schemeHost url2
  let robots := checkRobots web startUrl
  let sitemap := checkSitemap web startUrl
  let final := crawlLoop web maxPages fuel (initAccum url2)
  if final.pagesCrawled == 0 then
    { initResult with
        hasRobotsTxt := robots
        hasSitemap := sitemap
        auditErreur := some "Aucune page accessible" }
  else postCrawl web now robots sitemap final

/-- One CSV row as read by `create_prospect_scoring_v2`.  String fields hold
the value of Python's `str(row.get(...) or "")` (so a missing/NaN cell is
`""`, `"nan"` or `"None"`); numeric fields hold the `or 0` coalesced value. -/
structure ScoreRow where
  siteVerifie : Bool
  nbPages : Nat
  hasBlog : Bool
  blogStatus : String
  frequencePublication : String
  derniereMajBlog : String
  activiteStatus : String
  motsMoyenParPage : Int
  ratioTexteHtml : Rat
  cmsDetecte : String
  hasSitemap : Bool
  pagesSansMetaDesc : Nat
  pagesSansH1 : Nat
  titlesDupliques : Rat
  pagesVides : Nat
deriving DecidableEq

/-- The `derniere_maj_blog` guard and parse of the abandoned-blog branch:
non-sentinel string, `strptime(derniere_maj[:10], "%Y-%m-%d")`. -/
def parseMaj (s : String) : Option Int :=
  if !(s == "") && !(s == "nan") && !(s == "None") then
    parseDate (String.mk (s.data.take 10))
  else none

/-- Blog-activity signal: +5 abandoned (+7 when the last post is more than 4
years old), +2 semi-active, −4 active and frequent, +1 no blog. -/
def blogSignal (now : Int) (r : ScoreRow) : Rat :=
  let bs := strLower r.blogStatus
  let freq := strLower r.frequencePublication
  if r.hasBlog then
    if bs == "abandonné" then
      match parseMaj r.derniereMajBlog with
      | some d => if (4 : Rat) < ((now - d : Int) : Rat) / 365 then 7 else 5
      | none => 5
    else if bs == "semi-actif" then 2
    else if bs == "actif" && (freq == "hebdomadaire" || freq == "mensuelle") then -4
    else 0
  else 1

/-- Overall-activity fallback signal, applied only when `blog_status`
carries no date signal. -/
def activitySignal (r : ScoreRow) : Rat :=
  let bs := strLower r.blogStatus
  let act := strLower r.activiteStatus
  if !(bs == "abandonné" || bs == "semi-actif" || bs == "actif") then
    if act == "abandonné" then 4
    else if act == "semi-actif" then 1
    else 0
  else 0

/-- Site-size signal. -/
def sizeSignal (r : ScoreRow) : Rat :=
  if r.nbPages < 5 then 3
  else if r.nbPages < 10 then 1
  else if 50 < r.nbPages then -3
  else 0

/-- Content-density signal. -/
def densitySignal (r : ScoreRow) : Rat :=
  (if r.motsMoyenParPage < 150 then 2
   else if 400 < r.motsMoyenParPage then -2
   else 0)
  + (if r.ratioTexteHtml < 15/100 then 2 else 0)

/-- CMS signal. -/
def cmsSignal (r : ScoreRow) : Rat :=
  let cms := strStrip r.cmsDetecte
  if cms == "" || strLower cms == "none" then 2
  else if cms == "Wix" || cms == "Squarespace" then 1
  else 0

/-- Sitemap signal. -/
def sitemapSignal (r : ScoreRow) : Rat :=
  if r.hasSitemap then 0 else 1

/-- SEO-defect signals: 0.5 per full 20% tranche of the missing-meta,
missing-H1 and near-empty ratios, plus a flat 0.5 for a duplicate-title
ratio over 0.30. -/
def seoSignal (r : ScoreRow) : Rat :=
  let ratioMeta := (r.pagesSansMetaDesc : Rat) / (r.nbPages : Rat)
  let ratioH1 := (r.pagesSansH1 : Rat) / (r.nbPages : Rat)
  let ratioVides := (r.pagesVides : Rat) / (r.nbPages : Rat)
  (1/2) * ((ratioMeta / (2/10)).floor : Rat)
  + (1/2) * ((ratioH1 / (2/10)).floor : Rat)
  + (if 30/100 < r.titlesDupliques then 1/2 else 0)
  + (1/2) * ((ratioVides / (2/10)).floor : Rat)

/-- The accumulated weighted sum of `create_prospect_scoring_v2`. -/
def rawScore (now : Int) (r : ScoreRow) : Rat :=
  blogSignal now r + activitySignal r + sizeSignal r + densitySignal r
    + cmsSignal r + sitemapSignal r + seoSignal r

/-- Model of `create_prospect_scoring_v2` for one row: `none` when the row is skipped
(unverified, or zero fetched pages), else the clamped rounded score. -/
def scoreRow (now : Int) (r : ScoreRow) : Option Rat :=
  if !r.siteVerifie then none
  else if r.nbPages == 0 then none
  else some (max 1 (min 10 (pyRound1 (rawScore now r))))

/-! ## C8 — score bounds -/

/-- C8: every scored row (verified, at least one fetched page) receives a
final `prospect_score` in [1.0, 10.0] that is a whole number of tenths
(rounded to 1 decimal), whatever the accumulated weighted sum is. -/
theorem c8_score_bounds (now : Int) (r : ScoreRow) (s : Rat)
    (h : scoreRow now r = some s) :
    1 ≤ s ∧ s ≤ 10 ∧ ∃ z : Int, s = (z : Rat) / 10 := by
  unfold scoreRow at h
  split at h
  · exact absurd h (by simp)
  · split at h
    · exact absurd h (by simp)
    · have hs : s = max 1 (min 10 (pyRound1 (rawScore now r))) :=
        (Option.some.injEq _ _ ▸ h).symm
      refine ⟨hs ▸ le_max_left _ _, ?_, ?_⟩
      · rw [hs]
        exact max_le (by norm_num) (min_le_left _ _)
      · rw [hs]
        rcases max_cases (1 : Rat) (min 10 (pyRound1 (rawScore now r))) with
          ⟨he, _⟩ | ⟨he, _⟩
        · exact ⟨10, by rw [he]; norm_num⟩
        · rw [he]
          rcases min_cases (10 : Rat) (pyRound1 (rawScore now r)) with
            ⟨he2, _⟩ | ⟨he2, _⟩
          · exact ⟨100, by rw [he2]; norm_num⟩
          · exact ⟨pyRound (rawScore now r * 10), by rw [he2]; rfl⟩

/-- Concrete scored row for the C8 witness. -/
def c8row : ScoreRow :=
  { siteVerifie := true, nbPages := 20, hasBlog := false, blogStatus := "",
    frequencePublication := "", derniereMajBlog := "", activiteStatus := "",
    motsMoyenParPage := 200, ratioTexteHtml := 1/2, cmsDetecte := "WordPress",
    hasSitemap := true, pagesSansMetaDesc := 0, pagesSansH1 := 0,
    titlesDupliques := 0, pagesVides := 0 }

/-- C8 witness: the bound theorem applied at a concrete scored row. -/
theorem c8_witness :
    scoreRow 0 c8row = some 1 ∧
      (1 ≤ (1 : Rat) ∧ (1 : Rat) ≤ 10 ∧ ∃ z : Int, (1 : Rat) = (z : Rat) / 10) :=
  ⟨by with_unfolding_all decide,
   c8_score_bounds 0 c8row 1 (by with_unfolding_all decide)⟩

/-! ## C2 — abandoned-blog scoring signal -/

/-- Concrete row refuting C2: abandoned blog whose last post is 7 years old. -/
def c2row : ScoreRow :=
  { siteVerifie := true, nbPages := 3, hasBlog := true,
    blogStatus := "abandonné", frequencePublication := "",
    derniereMajBlog := "2018-01-01", activiteStatus := "abandonné",
    motsMoyenParPage := 0, ratioTexteHtml := 0, cmsDetecte := "",
    hasSitemap := false, pagesSansMetaDesc := 0, pagesSansH1 := 0,
    titlesDupliques := 0, pagesVides := 0 }

/-- C2 counterexample: for a verified row with `blog_status = "abandonné"`
whose last blog update is more than 4 years before "now", the blog-status
signal contributes 7, not the claimed flat 5. -/
theorem c2_counterexample :
    c2row.hasBlog = true ∧ strLower c2row.blogStatus = "abandonné" ∧
      blogSignal (dayNumber 2025 1 1) c2row = 7 := by
  with_unfolding_all decide

/-- C2 (amended): for every verified row with an abandoned blog, the
blog-status signal contributes 5 when the recorded last blog update is
missing, unparseable, or at most 4 years old, and 7 when it parses to a
date more than 4 years (1460 days, via days/365 > 4) before "now"; the
overall `activite_status` indeed contributes nothing further. -/
theorem c2_abandoned_blog_signal (now : Int) (r : ScoreRow)
    (hb : r.hasBlog = true) (hs : strLower r.blogStatus = "abandonné") :
    activitySignal r = 0 ∧
      ((blogSignal now r = 5 ∧ ∀ d, parseMaj r.derniereMajBlog = some d →
          ((now - d : Int) : Rat) / 365 ≤ 4) ∨
       (blogSignal now r = 7 ∧ ∃ d, parseMaj r.derniereMajBlog = some d ∧
          (4 : Rat) < ((now - d : Int) : Rat) / 365)) := by
  constructor
  · unfold activitySignal
    rw [hs]
    simp
  · unfold blogSignal
    rw [hb, hs]
    simp only [beq_self_eq_true, if_true, if_pos]
    cases hm : parseMaj r.derniereMajBlog with
    | none =>
      refine Or.inl ⟨by simp, ?_⟩
      intro d hd
      exact absurd hd (by simp)
    | some d =>
      by_cases h4 : (4 : Rat) < ((now - d : Int) : Rat) / 365
      · refine Or.inr ⟨?_, d, rfl, h4⟩
        show (if (4 : Rat) < ((now - d : Int) : Rat) / 365 then (7 : Rat) else 5) = 7
        rw [if_pos h4]
      · refine Or.inl ⟨?_, ?_⟩
        · show (if (4 : Rat) < ((now - d : Int) : Rat) / 365 then (7 : Rat) else 5) = 5
          rw [if_neg h4]
        · intro d' hd'
          have hdd : d' = d := ((Option.some.injEq _ _).mp hd').symm
          rw [hdd]
          exact le_of_not_lt h4

/-- Concrete row for the C2 witness: abandoned blog, last post 7 months old. -/
def c2wrow : ScoreRow :=
  { siteVerifie := true, nbPages := 3, hasBlog := true,
    blogStatus := "abandonné", frequencePublication := "",
    derniereMajBlog := "2024-06-01", activiteStatus := "abandonné",
    motsMoyenParPage := 0, ratioTexteHtml := 0, cmsDetecte := "",
    hasSitemap := false, pagesSansMetaDesc := 0, pagesSansH1 := 0,
    titlesDupliques := 0, pagesVides := 0 }

/-- C2 witness: the amended theorem applied at a concrete abandoned-blog row. -/
theorem c2_witness :
    activitySignal c2wrow = 0 ∧
      ((blogSignal (dayNumber 2025 1 1) c2wrow = 5 ∧
          ∀ d, parseMaj c2wrow.derniereMajBlog = some d →
            ((dayNumber 2025 1 1 - d : Int) : Rat) / 365 ≤ 4) ∨
       (blogSignal (dayNumber 2025 1 1) c2wrow = 7 ∧
          ∃ d, parseMaj c2wrow.derniereMajBlog = some d ∧
            (4 : Rat) < ((dayNumber 2025 1 1 - d : Int) : Rat) / 365)) :=
  c2_abandoned_blog_signal (dayNumber 2025 1 1) c2wrow rfl (by decide)

/-! ## C4 — publication frequency -/

/-- Mean positive gap between consecutive sorted dates (the quantity the
frequency thresholds are applied to). -/
def meanPosGap (dates : List Int) : Rat :=
  ((posIntervals dates).sum : Rat) / ((posIntervals dates).length : Rat)

/-- In a `≤`-chained list whose consecutive gaps are all nonpositive, all
elements are equal. -/
theorem pairGaps_const : ∀ (l : List Int), l.Chain' (· ≤ ·) →
    (∀ g ∈ pairGaps l, ¬ 0 < g) → ∀ x ∈ l, ∀ y ∈ l, x = y := by
  intro l
  induction l with
  | nil => simp
  | cons a t ih =>
    cases t with
    | nil => simp
    | cons b t2 =>
      intro hch hg
      have hab : a ≤ b := (List.chain'_cons.mp hch).1
      have hba : b ≤ a := by
        have := hg (b - a) (by simp [pairGaps])
        omega
      have hEq : a = b := le_antisymm hab hba
      have ih2 := ih (List.chain'_cons.mp hch).2
        (fun g hgm => hg g (by simp [pairGaps]; exact Or.inr hgm))
      have hall : ∀ z ∈ a :: b :: t2, z = b := by
        intro z hz
        rcases List.mem_cons.mp hz with rfl | hz2
        · exact hEq
        · exact ih2 z hz2 b (List.mem_cons_self _ _)
      intro x hx y hy
      rw [hall x hx, hall y hy]

/-- Two distinct values in the date list force a positive consecutive gap in
the sorted list. -/
theorem posIntervals_ne_nil (dates : List Int) (a b : Int)
    (ha : a ∈ dates) (hb : b ∈ dates) (hab : a < b) :
    posIntervals dates ≠ [] := by
  intro hnil
  have hsorted : (List.insertionSort (fun a b : Int => a ≤ b) dates).Chain'
      (fun a b : Int => a ≤ b) :=
    (List.sorted_insertionSort _ dates).chain'
  have hg : ∀ g ∈ pairGaps (List.insertionSort (fun a b : Int => a ≤ b) dates),
      ¬ 0 < g := by
    intro g hgm
    have := List.filter_eq_nil_iff.mp hnil g hgm
    simpa using this
  have := pairGaps_const _ hsorted hg a (by simpa using ha) b (by simpa using hb)
  omega

/-- C4 counterexample: a list of two (equal) dates — length ≥ 2 — yields no
frequency at all, not one of the four claimed categories. -/
theorem c4_counterexample :
    ([dayNumber 2024 1 1, dayNumber 2024 1 1] : List Int).length = 2 ∧
      compute_publication_frequency [dayNumber 2024 1 1, dayNumber 2024 1 1]
        = none := by
  with_unfolding_all decide

/-- C4 (amended): fewer than 2 dates gives no frequency; with 2 or more
dates, zero-day gaps are discarded, so the frequency is `none` when all
dates are equal, and otherwise (some two dates differ) it is exactly one of
the four categories, selected by thresholding the mean of the positive
consecutive sorted gaps at 14, 45 and 100 days. -/
theorem c4_frequency_classification (dates : List Int) :
    (dates.length < 2 → compute_publication_frequency dates = none) ∧
    (2 ≤ dates.length → ∀ a ∈ dates, ∀ b ∈ dates, a < b →
      ∃ c, compute_publication_frequency dates = some c ∧
        (c = "hebdomadaire" ∨ c = "mensuelle" ∨ c = "trimestrielle" ∨ c = "rare") ∧
        (c = "hebdomadaire" ↔ meanPosGap dates ≤ 14) ∧
        ((c = "hebdomadaire" ∨ c = "mensuelle") ↔ meanPosGap dates ≤ 45) ∧
        ((c = "hebdomadaire" ∨ c = "mensuelle" ∨ c = "trimestrielle") ↔
          meanPosGap dates ≤ 100)) := by
  constructor
  · intro hlen
    unfold compute_publication_frequency
    rw [if_pos hlen]
  · intro hlen a ha b hb hab
    have hne := posIntervals_ne_nil dates a b ha hb hab
    unfold compute_publication_frequency
    rw [if_neg (by omega)]
    simp only [List.isEmpty_iff]
    rw [if_neg hne]
    have hmg : ((posIntervals dates).sum : Rat) / ((posIntervals dates).length : Rat)
        = meanPosGap dates := rfl
    rw [hmg]
    by_cases h14 : meanPosGap dates ≤ 14
    · refine ⟨"hebdomadaire", by rw [if_pos h14], by simp, ?_, ?_, ?_⟩
      · simp [h14]
      · have h45' : meanPosGap dates ≤ 45 := le_trans h14 (by norm_num)
        simp [h45']
      · have h100' : meanPosGap dates ≤ 100 := le_trans h14 (by norm_num)
        simp [h100']
    · rw [if_neg h14]
      by_cases h45 : meanPosGap dates ≤ 45
      · refine ⟨"mensuelle", by rw [if_pos h45], by simp, ?_, ?_, ?_⟩
        · constructor
          · intro hco
            exact absurd hco (by decide)
          · intro hle
            exact absurd hle h14
        · simp [h45]
        · have h100' : meanPosGap dates ≤ 100 := le_trans h45 (by norm_num)
          simp [h100']
      · rw [if_neg h45]
        by_cases h100 : meanPosGap dates ≤ 100
        · refine ⟨"trimestrielle", by rw [if_pos h100], by simp, ?_, ?_, ?_⟩
          · constructor
            · intro hco
              exact absurd hco (by decide)
            · intro hle
              exact absurd hle h14
          · constructor
            · intro hco
              rcases hco with hco | hco <;> exact absurd hco (by decide)
            · intro hle
              exact absurd hle h45
          · simp [h100]
        · rw [if_neg h100]
          refine ⟨"rare", rfl, by simp, ?_, ?_, ?_⟩
          · constructor
            · intro hco
              exact absurd hco (by decide)
            · intro hle
              exact absurd hle h14
          · constructor
            · intro hco
              rcases hco with hco | hco <;> exact absurd hco (by decide)
            · intro hle
              exact absurd hle h45
          · constructor
            · intro hco
              rcases hco with hco | hco | hco <;> exact absurd hco (by decide)
            · intro hle
              exact absurd hle h100

/-- C4 witness: the amended theorem applied to three concrete weekly dates. -/
theorem c4_witness :
    ∃ c, compute_publication_frequency
        [dayNumber 2024 1 1, dayNumber 2024 1 8, dayNumber 2024 1 15] = some c ∧
      (c = "hebdomadaire" ∨ c = "mensuelle" ∨ c = "trimestrielle" ∨ c = "rare") ∧
      (c = "hebdomadaire" ↔
        meanPosGap [dayNumber 2024 1 1, dayNumber 2024 1 8, dayNumber 2024 1 15] ≤ 14) ∧
      ((c = "hebdomadaire" ∨ c = "mensuelle") ↔
        meanPosGap [dayNumber 2024 1 1, dayNumber 2024 1 8, dayNumber 2024 1 15] ≤ 45) ∧
      ((c = "hebdomadaire" ∨ c = "mensuelle" ∨ c = "trimestrielle") ↔
        meanPosGap [dayNumber 2024 1 1, dayNumber 2024 1 8, dayNumber 2024 1 15] ≤ 100) :=
  (c4_frequency_classification
      [dayNumber 2024 1 1, dayNumber 2024 1 8, dayNumber 2024 1 15]).2
    (by decide) (dayNumber 2024 1 1) (by decide) (dayNumber 2024 1 8)
    (by decide) (by decide)

/-! ## C5 — extracted date strings -/

/-- Two-digit zero-padded decimal rendering. -/
def digits2 (n : Nat) : List Char :=
  [Char.ofNat (48 + n / 10 % 10), Char.ofNat (48 + n % 10)]

/-- Four-digit zero-padded decimal rendering. -/
def digits4 (n : Nat) : List Char :=
  [Char.ofNat (48 + n / 1000 % 10), Char.ofNat (48 + n / 100 % 10),
   Char.ofNat (48 + n / 10 % 10), Char.ofNat (48 + n % 10)]

/-- Spec-side shape of an extracted date string: `YYYYsMMsDD` where each of
the two separators is independently a dash or a slash, with year in
[2010, 2029], month 01–12 and day 01–31. -/
def dateShapeOk (s : String) : Prop :=
  ∃ (year month day : Nat) (s1 s2 : Char),
    (s1 = '-' ∨ s1 = '/') ∧ (s2 = '-' ∨ s2 = '/') ∧
    s.data = digits4 year ++ s1 :: digits2 month ++ s2 :: digits2 day ∧
    2010 ≤ year ∧ year ≤ 2029 ∧ 1 ≤ month ∧ month ≤ 12 ∧ 1 ≤ day ∧ day ≤ 31

/-- Modelled from the spec: the claimed shape with a single uniform
separator (`YYYY-MM-DD` or `YYYY/MM/DD`), to be compared with the shape the
code actually produces. -/
def uniformDateShape (s : String) : Prop :=
  ∃ (year month day : Nat) (sep : Char),
    (sep = '-' ∨ sep = '/') ∧
    s.data = digits4 year ++ sep :: digits2 month ++ sep :: digits2 day ∧
    2010 ≤ year ∧ year ≤ 2029 ∧ 1 ≤ month ∧ month ≤ 12 ∧ 1 ≤ day ∧ day ≤ 31

theorem isDig_bounds (c : Char) (h : isDig c = true) :
    48 ≤ c.toNat ∧ c.toNat ≤ 57 := by
  simp only [isDig, Bool.and_eq_true, decide_eq_true_eq] at h
  obtain ⟨h1, h2⟩ := h
  rw [Char.le_def] at h1 h2
  exact ⟨h1, h2⟩

theorem digit_char_eq (c : Char) (h1 : 48 ≤ c.toNat) :
    Char.ofNat (48 + (c.toNat - 48)) = c := by
  have he : 48 + (c.toNat - 48) = c.toNat := by omega
  rw [he, Char.ofNat_toNat]

theorem windowOk_shape (l : List Char) (h : windowOk l = true) :
    dateShapeOk (String.mk l) := by
  match l, h with
  | [c0, c1, c2, c3, s1, m1, m2, s2, d1, d2], h =>
    simp only [windowOk, Bool.and_eq_true, Bool.or_eq_true, beq_iff_eq] at h
    obtain ⟨⟨⟨⟨⟨⟨⟨hc0, hc1⟩, hc2⟩, hc3⟩, hs1⟩, hm⟩, hs2⟩, hd⟩ := h
    subst hc0 hc1
    obtain ⟨hc3l, hc3r⟩ := isDig_bounds c3 hc3
    have hsep1 : s1 = '-' ∨ s1 = '/' := by
      simpa [isSep, beq_iff_eq] using hs1
    have hsep2 : s2 = '-' ∨ s2 = '/' := by
      simpa [isSep, beq_iff_eq] using hs2
    -- year
    have hyear : ∃ year, digits4 year = ['2', '0', c2, c3] ∧
        2010 ≤ year ∧ year ≤ 2029 := by
      rcases hc2 with rfl | rfl
      · refine ⟨2010 + (c3.toNat - 48), ?_, by omega, by omega⟩
        simp only [digits4]
        have e1 : (2010 + (c3.toNat - 48)) / 1000 % 10 = 2 := by omega
        have e2 : (2010 + (c3.toNat - 48)) / 100 % 10 = 0 := by omega
        have e3 : (2010 + (c3.toNat - 48)) / 10 % 10 = 1 := by omega
        have e4 : (2010 + (c3.toNat - 48)) % 10 = c3.toNat - 48 := by omega
        rw [e1, e2, e3, e4, digit_char_eq c3 hc3l]
      · refine ⟨2020 + (c3.toNat - 48), ?_, by omega, by omega⟩
        simp only [digits4]
        have e1 : (2020 + (c3.toNat - 48)) / 1000 % 10 = 2 := by omega
        have e2 : (2020 + (c3.toNat - 48)) / 100 % 10 = 0 := by omega
        have e3 : (2020 + (c3.toNat - 48)) / 10 % 10 = 2 := by omega
        have e4 : (2020 + (c3.toNat - 48)) % 10 = c3.toNat - 48 := by omega
        rw [e1, e2, e3, e4, digit_char_eq c3 hc3l]
    -- month
    have hmonth : ∃ month, digits2 month = [m1, m2] ∧ 1 ≤ month ∧ month ≤ 12 := by
      simp only [monthOk, Bool.and_eq_true, Bool.or_eq_true, beq_iff_eq,
        decide_eq_true_eq] at hm
      rcases hm with ⟨⟨rfl, hm2a⟩, hm2b⟩ | ⟨rfl, (rfl | rfl) | rfl⟩
      · have hm2a' : 49 ≤ m2.toNat := by rw [Char.le_def] at hm2a; exact hm2a
        have hm2b' : m2.toNat ≤ 57 := by rw [Char.le_def] at hm2b; exact hm2b
        refine ⟨m2.toNat - 48, ?_, by omega, by omega⟩
        simp only [digits2]
        have e1 : (m2.toNat - 48) / 10 % 10 = 0 := by omega
        have e2 : (m2.toNat - 48) % 10 = m2.toNat - 48 := by omega
        rw [e1, e2, digit_char_eq m2 (by omega)]
      · exact ⟨10, by simp [digits2], by omega, by omega⟩
      · exact ⟨11, by simp [digits2], by omega, by omega⟩
      · exact ⟨12, by simp [digits2], by omega, by omega⟩
    -- day
    have hday : ∃ day, digits2 day = [d1, d2] ∧ 1 ≤ day ∧ day ≤ 31 := by
      simp only [dayOk, Bool.and_eq_true, Bool.or_eq_true, beq_iff_eq,
        decide_eq_true_eq] at hd
      rcases hd with (⟨⟨rfl, hd2a⟩, hd2b⟩ | ⟨rfl | rfl, hd2⟩) | ⟨rfl, rfl | rfl⟩
      · have hd2a' : 49 ≤ d2.toNat := by rw [Char.le_def] at hd2a; exact hd2a
        have hd2b' : d2.toNat ≤ 57 := by rw [Char.le_def] at hd2b; exact hd2b
        refine ⟨d2.toNat - 48, ?_, by omega, by omega⟩
        simp only [digits2]
        have e1 : (d2.toNat - 48) / 10 % 10 = 0 := by omega
        have e2 : (d2.toNat - 48) % 10 = d2.toNat - 48 := by omega
        rw [e1, e2, digit_char_eq d2 (by omega)]
      · obtain ⟨hd2l, hd2r⟩ := isDig_bounds d2 hd2
        refine ⟨10 + (d2.toNat - 48), ?_, by omega, by omega⟩
        simp only [digits2]
        have e1 : (10 + (d2.toNat - 48)) / 10 % 10 = 1 := by omega
        have e2 : (10 + (d2.toNat - 48)) % 10 = d2.toNat - 48 := by omega
        rw [e1, e2, digit_char_eq d2 (by omega)]
      · obtain ⟨hd2l, hd2r⟩ := isDig_bounds d2 hd2
        refine ⟨20 + (d2.toNat - 48), ?_, by omega, by omega⟩
        simp only [digits2]
        have e1 : (20 + (d2.toNat - 48)) / 10 % 10 = 2 := by omega
        have e2 : (20 + (d2.toNat - 48)) % 10 = d2.toNat - 48 := by omega
        rw [e1, e2, digit_char_eq d2 (by omega)]
      · exact ⟨30, by simp [digits2], by omega, by omega⟩
      · exact ⟨31, by simp [digits2], by omega, by omega⟩
    obtain ⟨year, hy, hy1, hy2⟩ := hyear
    obtain ⟨month, hmo, hmo1, hmo2⟩ := hmonth
    obtain ⟨day, hdy, hdy1, hdy2⟩ := hday
    exact ⟨year, month, day, s1, s2, hsep1, hsep2,
      by simp only [String.mk] at *; rw [hy, hmo, hdy]; rfl,
      hy1, hy2, hmo1, hmo2, hdy1, hdy2⟩

theorem searchDateList_windowOk : ∀ (l m : List Char),
    searchDateList l = some m → windowOk m = true := by
  intro l
  induction l with
  | nil => intro m h; simp [searchDateList] at h
  | cons c rest ih =>
    intro m h
    rw [searchDateList] at h
    cases hA : dateAt (c :: rest) with
    | some w =>
      rw [hA] at h
      unfold dateAt at hA
      by_cases hw : windowOk ((c :: rest).take 10) = true
      · rw [if_pos hw] at hA
        cases hA
        cases h
        exact hw
      · rw [if_neg hw] at hA
        cases hA
    | none =>
      rw [hA] at h
      exact ih m h

theorem searchDate_shape (s d : String) (h : searchDate s = some d) :
    dateShapeOk d := by
  unfold searchDate at h
  obtain ⟨m, hm, hmk⟩ := Option.map_eq_some'.mp h
  have : d = String.mk m := hmk.symm
  rw [this]
  exact windowOk_shape m (searchDateList_windowOk s.data m hm)

theorem mem_extract_dates_searched (p : PageData) (url d : String)
    (h : d ∈ extract_dates p url) : ∃ s, searchDate s = some d := by
  unfold extract_dates at h
  rcases List.mem_append.mp h with h1 | hurl
  · rcases List.mem_append.mp h1 with ht | hj
    · obtain ⟨a, _, ha⟩ := List.mem_filterMap.mp ht
      exact ⟨a, ha⟩
    · obtain ⟨l, hl, hdl⟩ := List.mem_flatten.mp hj
      obtain ⟨text, _, hft⟩ := List.mem_map.mp hl
      rw [← hft] at hdl
      obtain ⟨field, _, hfield⟩ := List.mem_filterMap.mp hdl
      cases hidx : findSub? field.data text.data with
      | some idx =>
        rw [hidx] at hfield
        exact ⟨_, hfield⟩
      | none =>
        rw [hidx] at hfield
        exact absurd hfield (by simp)
  · cases hs : searchDate url with
    | some m =>
      rw [hs] at hurl
      have : d = m := by simpa using hurl
      exact ⟨url, by rw [hs, this]⟩
    | none =>
      rw [hs] at hurl
      simp at hurl

/-- Concrete page refuting the uniform-separator reading of C5. -/
def c5page : PageData :=
  { title := "", metaDescOk := false, h1Count := 0, hasCanonical := false,
    noindex := false, words := [], timeTags := ["publié le 2024-01/15"],
    jsonLdBlocks := [], navBlog := none, hasRssLink := false, links := [],
    hrefs := [] }

/-- C5 counterexample: a `<time>` tag value with mixed separators yields the
extracted date string "2024-01/15", which is not of the claimed uniform
`YYYY-MM-DD` / `YYYY/MM/DD` form (the regex checks the two separators
independently). -/
theorem c5_counterexample :
    "2024-01/15" ∈ extract_dates c5page "https://a.fr/page" ∧
      ¬ uniformDateShape "2024-01/15" := by
  constructor
  · decide
  · rintro ⟨y, m, d, sep, hsep, hdata, _⟩
    simp only [digits4, digits2, List.cons_append, List.nil_append,
      List.cons.injEq] at hdata
    obtain ⟨_, _, _, _, h5, _, _, h8, _⟩ := hdata
    rw [← h5] at h8
    exact absurd h8 (by decide)

/-- C5 (amended): every date string produced by `_extract_dates` (from
`<time>` tags, JSON-LD date fields, or the URL) has the exact 10-character
shape `YYYYsMMsDD` with year in [2010, 2029], month 01–12, day 01–31, where
each of the two separators is independently a dash or a slash (they need not
agree); candidates failing the pattern are discarded, never kept partially. -/
theorem c5_extracted_dates_shape (p : PageData) (url d : String)
    (h : d ∈ extract_dates p url) : dateShapeOk d := by
  obtain ⟨s, hs⟩ := mem_extract_dates_searched p url d h
  exact searchDate_shape s d hs

/-- C5 witness: the amended theorem applied to a concrete page. -/
theorem c5_witness : dateShapeOk "2024-01/15" :=
  c5_extracted_dates_shape c5page "https://a.fr/page" "2024-01/15" (by decide)

/-! ## C1, C10 — BFS crawl invariants -/

/-- Crawl-loop invariant: the page budget is respected; no URL is dequeued
(fetched) twice and none is both already fetched and still enqueued — i.e.
every URL is enqueued at most once; every tracked URL is in the visited set;
queued depths never exceed the fetched-page count; and the depth watermark
is below the fetched-page count. -/
def CrawlInv (maxPages : Nat) (st : Accum) : Prop :=
  st.pagesCrawled ≤ maxPages ∧
  (st.fetchSeq ++ st.queue.map Prod.fst).Nodup ∧
  (∀ x, x ∈ st.fetchSeq ++ st.queue.map Prod.fst → x ∈ st.visited) ∧
  (∀ pr ∈ st.queue, pr.2 ≤ st.pagesCrawled) ∧
  (st.profondeurMax = 0 ∧ st.pagesCrawled = 0 ∨
    st.profondeurMax + 1 ≤ st.pagesCrawled)

theorem enqueueLinks_inv (dep : Nat) :
    ∀ (links v : List String) (q : List (String × Nat)) (fs : List String),
      (fs ++ q.map Prod.fst).Nodup →
      (∀ x, x ∈ fs ++ q.map Prod.fst → x ∈ v) →
      (fs ++ (enqueueLinks dep links (v, q)).2.map Prod.fst).Nodup ∧
      (∀ x, x ∈ fs ++ (enqueueLinks dep links (v, q)).2.map Prod.fst →
        x ∈ (enqueueLinks dep links (v, q)).1) ∧
      (∀ pr ∈ (enqueueLinks dep links (v, q)).2, pr ∈ q ∨ pr.2 = dep) := by
  intro links
  induction links with
  | nil =>
    intro v q fs hnd hmem
    exact ⟨hnd, hmem, fun pr hpr => Or.inl hpr⟩
  | cons link rest ih =>
    intro v q fs hnd hmem
    rw [enqueueLinks]
    by_cases hv : link ∈ v
    · rw [if_pos hv]
      exact ih v q fs hnd hmem
    · rw [if_neg hv]
      have hnotin : link ∉ fs ++ q.map Prod.fst := fun hm => hv (hmem link hm)
      have hnd' : (fs ++ (q ++ [(link, dep)]).map Prod.fst).Nodup := by
        rw [List.map_append, ← List.append_assoc]
        simp only [List.map_cons, List.map_nil]
        rw [List.nodup_append]
        exact ⟨hnd, List.nodup_singleton link,
          fun a ha hb => by
            rw [List.mem_singleton] at hb
            exact hnotin (hb ▸ ha)⟩
      have hmem' : ∀ x, x ∈ fs ++ (q ++ [(link, dep)]).map Prod.fst →
          x ∈ v ++ [link] := by
        intro x hx
        rw [List.map_append] at hx
        simp only [List.map_cons, List.map_nil] at hx
        rw [← List.append_assoc] at hx
        rcases List.mem_append.mp hx with hx1 | hx2
        · exact List.mem_append_left _ (hmem x hx1)
        · exact List.mem_append_right _ hx2
      obtain ⟨h1, h2, h3⟩ := ih (v ++ [link]) (q ++ [(link, dep)]) fs hnd' hmem'
      refine ⟨h1, h2, ?_⟩
      intro pr hpr
      rcases h3 pr hpr with hq | hdep
      · rcases List.mem_append.mp hq with hq1 | hq2
        · exact Or.inl hq1
        · rw [List.mem_singleton] at hq2
          exact Or.inr (by rw [hq2])
      · exact Or.inr hdep

theorem skipPage_inv (maxPages : Nat) (u : String) (d : Nat)
    (rest : List (String × Nat)) (st : Accum) (hq : st.queue = (u, d) :: rest)
    (h : CrawlInv maxPages st) : CrawlInv maxPages (skipPage u rest st) := by
  obtain ⟨hpc, hnd, hmem, hdep, hpm⟩ := h
  rw [hq] at hnd hmem hdep
  simp only [List.map_cons] at hnd hmem
  simp only [skipPage, CrawlInv]
  refine ⟨hpc, ?_, ?_, ?_, hpm⟩
  · rw [List.append_assoc]
    exact hnd
  · intro x hx
    apply hmem x
    rw [List.append_assoc] at hx
    exact hx
  · intro pr hpr
    exact hdep pr (List.mem_cons_of_mem _ hpr)

theorem processPage_pagesCrawled (maxPages : Nat) (u : String) (d : Nat)
    (f : Fetched) (rest : List (String × Nat)) (st : Accum) :
    (processPage maxPages u d f rest st).pagesCrawled = st.pagesCrawled + 1 := rfl

theorem processPage_fetchSeq (maxPages : Nat) (u : String) (d : Nat)
    (f : Fetched) (rest : List (String × Nat)) (st : Accum) :
    (processPage maxPages u d f rest st).fetchSeq = st.fetchSeq ++ [u] := rfl

theorem processPage_profondeurMax (maxPages : Nat) (u : String) (d : Nat)
    (f : Fetched) (rest : List (String × Nat)) (st : Accum) :
    (processPage maxPages u d f rest st).profondeurMax =
      if d > st.profondeurMax then d else st.profondeurMax := rfl

theorem processPage_visited (maxPages : Nat) (u : String) (d : Nat)
    (f : Fetched) (rest : List (String × Nat)) (st : Accum) :
    (processPage maxPages u d f rest st).visited =
      (if st.pagesCrawled + 1 < maxPages then
        enqueueLinks (d + 1) f.page.links (st.visited, rest)
      else (st.visited, rest)).1 := rfl

theorem processPage_queue (maxPages : Nat) (u : String) (d : Nat)
    (f : Fetched) (rest : List (String × Nat)) (st : Accum) :
    (processPage maxPages u d f rest st).queue =
      (if st.pagesCrawled + 1 < maxPages then
        enqueueLinks (d + 1) f.page.links (st.visited, rest)
      else (st.visited, rest)).2 := rfl

theorem processPage_inv (maxPages : Nat) (u : String) (d : Nat) (f : Fetched)
    (rest : List (String × Nat)) (st : Accum) (hq : st.queue = (u, d) :: rest)
    (hlt : st.pagesCrawled < maxPages) (h : CrawlInv maxPages st) :
    CrawlInv maxPages (processPage maxPages u d f rest st) := by
  obtain ⟨hpc, hnd, hmem, hdep, hpm⟩ := h
  rw [hq] at hnd hmem hdep
  simp only [List.map_cons] at hnd hmem
  have hd0 : d ≤ st.pagesCrawled := hdep (u, d) (List.mem_cons_self _ _)
  have hnd0 : ((st.fetchSeq ++ [u]) ++ rest.map Prod.fst).Nodup := by
    rw [List.append_assoc]
    exact hnd
  have hmem0 : ∀ x, x ∈ (st.fetchSeq ++ [u]) ++ rest.map Prod.fst →
      x ∈ st.visited := by
    intro x hx
    apply hmem x
    rw [List.append_assoc] at hx
    exact hx
  have hpm' : (if d > st.profondeurMax then d else st.profondeurMax) + 1 ≤
      st.pagesCrawled + 1 := by
    rcases hpm with ⟨hpm0, hpc0⟩ | hpm1
    · have hd00 : d = 0 := by omega
      rw [hpm0, hd00]
      simp
    · by_cases hgt : d > st.profondeurMax
      · rw [if_pos hgt]
        omega
      · rw [if_neg hgt]
        omega
  unfold CrawlInv
  rw [processPage_pagesCrawled, processPage_fetchSeq, processPage_profondeurMax,
    processPage_visited, processPage_queue]
  by_cases hb : st.pagesCrawled + 1 < maxPages
  · rw [if_pos hb]
    obtain ⟨h1, h2, h3⟩ :=
      enqueueLinks_inv (d + 1) f.page.links st.visited rest (st.fetchSeq ++ [u])
        hnd0 hmem0
    refine ⟨hlt, h1, h2, ?_, Or.inr hpm'⟩
    intro pr hpr
    rcases h3 pr hpr with hr | hnew
    · exact Nat.le_succ_of_le (hdep pr (List.mem_cons_of_mem _ hr))
    · omega
  · rw [if_neg hb]
    refine ⟨hlt, hnd0, hmem0, ?_, Or.inr hpm'⟩
    intro pr hpr
    exact Nat.le_succ_of_le (hdep pr (List.mem_cons_of_mem _ hpr))

theorem crawlLoop_inv (web : Web) (maxPages : Nat) :
    ∀ (fuel : Nat) (st : Accum), CrawlInv maxPages st →
      CrawlInv maxPages (crawlLoop web maxPages fuel st) := by
  intro fuel
  induction fuel with
  | zero => intro st h; exact h
  | succ n ih =>
    intro st h
    rw [crawlLoop]
    cases hq : st.queue with
    | nil => exact h
    | cons hd tl =>
      obtain ⟨u, d⟩ := hd
      show CrawlInv maxPages
        (if st.pagesCrawled < maxPages then
          match web u with
          | none => crawlLoop web maxPages n (skipPage u tl st)
          | some f =>
            if (f.status == 200 && f.contentTypeHtml) = true then
              crawlLoop web maxPages n (processPage maxPages u d f tl st)
            else crawlLoop web maxPages n (skipPage u tl st)
        else st)
      by_cases hlt : st.pagesCrawled < maxPages
      · rw [if_pos hlt]
        cases hw : web u with
        | none => exact ih _ (skipPage_inv maxPages u d tl st hq h)
        | some f =>
          show CrawlInv maxPages
            (if (f.status == 200 && f.contentTypeHtml) = true then
              crawlLoop web maxPages n (processPage maxPages u d f tl st)
            else crawlLoop web maxPages n (skipPage u tl st))
          by_cases hok : (f.status == 200 && f.contentTypeHtml) = true
          · rw [if_pos hok]
            exact ih _ (processPage_inv maxPages u d f tl st hq hlt h)
          · rw [if_neg hok]
            exact ih _ (skipPage_inv maxPages u d tl st hq h)
      · rw [if_neg hlt]
        exact h

theorem initAccum_inv (maxPages : Nat) (url : String) :
    CrawlInv maxPages (initAccum url) := by
  refine ⟨Nat.zero_le _, ?_, ?_, ?_, Or.inl ⟨rfl, rfl⟩⟩
  · simp [initAccum]
  · intro x hx
    simp only [initAccum, List.nil_append, List.map_cons, List.map_nil] at hx ⊢
    exact hx
  · intro pr hpr
    simp only [initAccum, List.mem_singleton] at hpr
    rw [hpr]
    simp [initAccum]

/-- C1: for every crawl (any link graph, any budget, any fuel), the number
of successfully fetched pages `nb_pages` never exceeds `max_pages`, and no
URL is fetched twice — the fetch sequence is duplicate-free, and moreover no
fetched URL is still enqueued (every URL is enqueued at most once, because
membership is tested against the visited set before enqueueing). -/
theorem c1_budget_and_no_refetch (web : Web) (url : String)
    (maxPages : Nat) (now : Int) (fuel : Nat) :
    (audit_site web url maxPages now fuel).nbPages ≤ maxPages ∧
    ((crawlLoop web maxPages fuel (initAccum (ensureHttp url))).fetchSeq ++
      (crawlLoop web maxPages fuel (initAccum (ensureHttp url))).queue.map
        Prod.fst).Nodup ∧
    (crawlLoop web maxPages fuel (initAccum (ensureHttp url))).fetchSeq.Nodup := by
  have hinv := crawlLoop_inv web maxPages fuel (initAccum (ensureHttp url))
    (initAccum_inv maxPages (ensureHttp url))
  obtain ⟨hpc, hnd, -, -, -⟩ := hinv
  refine ⟨?_, hnd, hnd.of_append_left⟩
  unfold audit_site
  by_cases h0 : (crawlLoop web maxPages fuel (initAccum (ensureHttp url))).pagesCrawled
      = 0
  · rw [if_pos (by simpa using h0)]
    exact Nat.zero_le _
  · rw [if_neg (by simpa using h0)]
    exact hpc

/-- C10: for every terminated crawl, when at least one page was fetched the
recorded maximum depth is at most `nb_pages - 1` (a page at depth `d` needs
a chain of `d` previously fetched pages), and when no page was fetched the
recorded maximum depth is 0. -/
theorem c10_depth_bound (web : Web) (url : String) (maxPages : Nat)
    (now : Int) (fuel : Nat) :
    ((audit_site web url maxPages now fuel).nbPages = 0 →
      (audit_site web url maxPages now fuel).profondeurMax = 0) ∧
    (1 ≤ (audit_site web url maxPages now fuel).nbPages →
      (audit_site web url maxPages now fuel).profondeurMax ≤
        (audit_site web url maxPages now fuel).nbPages - 1) := by
  have hinv := crawlLoop_inv web maxPages fuel (initAccum (ensureHttp url))
    (initAccum_inv maxPages (ensureHttp url))
  obtain ⟨-, -, -, -, hpm⟩ := hinv
  unfold audit_site
  by_cases h0 : (crawlLoop web maxPages fuel (initAccum (ensureHttp url))).pagesCrawled
      = 0
  · rw [if_pos (by simpa using h0)]
    exact ⟨fun _ => rfl, fun habs => by simp [initResult] at habs⟩
  · rw [if_neg (by simpa using h0)]
    constructor
    · intro hzero
      exact absurd hzero h0
    · intro _
      show (crawlLoop web maxPages fuel (initAccum (ensureHttp url))).profondeurMax ≤
        (crawlLoop web maxPages fuel (initAccum (ensureHttp url))).pagesCrawled - 1
      rcases hpm with ⟨hpm0, hpc0⟩ | hpm1
      · exact absurd hpc0 h0
      · omega

/-- Concrete one-page site for the C10 witness. -/
def emptyPage : PageData :=
  { title := "", metaDescOk := false, h1Count := 0, hasCanonical := false,
    noindex := false, words := [], timeTags := [], jsonLdBlocks := [],
    navBlog := none, hasRssLink := false, links := [], hrefs := [] }

def c10web : Web := fun u =>
  if u == "https://a.fr" then
    some { status := 200, contentTypeHtml := true, text := "", page := emptyPage }
  else none

/-- C10 witness: both implications of the depth-bound theorem applied at
concrete crawls (an unreachable site, and a one-page site). -/
theorem c10_witness :
    (audit_site (fun _ => none) "https://b.fr" 5 0 9).profondeurMax = 0 ∧
    (audit_site c10web "https://a.fr" 5 0 9).profondeurMax ≤
      (audit_site c10web "https://a.fr" 5 0 9).nbPages - 1 :=
  ⟨(c10_depth_bound (fun _ => none) "https://b.fr" 5 0 9).1 (by decide),
   (c10_depth_bound c10web "https://a.fr" 5 0 9).2 (by decide)⟩

/-! ## C3 — zero-pages crawls -/

/-- Concrete site refuting C3 as stated: robots.txt is served but no HTML
page is reachable. -/
def c3web : Web := fun u =>
  if u == "https://a.fr/robots.txt" then
    some { status := 200, contentTypeHtml := false, text := "User-agent: *",
           page := emptyPage }
  else none

/-- C3 counterexample: a crawl that fetched zero pages but whose out-of-band
robots.txt probe succeeded; the result carries the audit error, yet
`has_robots_txt` is `true`, not at its absent default as claimed. -/
theorem c3_counterexample :
    (audit_site c3web "https://a.fr" 5 0 9).nbPages = 0 ∧
    (audit_site c3web "https://a.fr" 5 0 9).auditErreur =
      some "Aucune page accessible" ∧
    (audit_site c3web "https://a.fr" 5 0 9).hasRobotsTxt = true := by
  decide

/-- C3 (amended): for every crawl in which zero pages were successfully
fetched, the result carries the audit error string and every other field
stays at its zero/absent default — except `has_robots_txt` and
`has_sitemap`, which reflect the two out-of-band probes performed before
the BFS and may be `true` even when no page is reachable. -/
theorem c3_zero_pages_defaults (web : Web) (url : String) (maxPages : Nat)
    (now : Int) (fuel : Nat)
    (h : (audit_site web url maxPages now fuel).nbPages = 0) :
    (audit_site web url maxPages now fuel).auditErreur =
        some "Aucune page accessible" ∧
    (audit_site web url maxPages now fuel).profondeurMax = 0 ∧
    (audit_site web url maxPages now fuel).hasBlog = false ∧
    (audit_site web url maxPages now fuel).blogUrl = none ∧
    (audit_site web url maxPages now fuel).hasRss = false ∧
    (audit_site web url maxPages now fuel).blogStatus = "absent" ∧
    (audit_site web url maxPages now fuel).derniereMajBlog = none ∧
    (audit_site web url maxPages now fuel).frequencePublication = none ∧
    (audit_site web url maxPages now fuel).derniereDate = none ∧
    (audit_site web url maxPages now fuel).activiteStatus = "inconnu" ∧
    (audit_site web url maxPages now fuel).pagesSansTitle = 0 ∧
    (audit_site web url maxPages now fuel).pagesTitleCourt = 0 ∧
    (audit_site web url maxPages now fuel).titlesDupliques = 0 ∧
    (audit_site web url maxPages now fuel).pagesSansMetaDesc = 0 ∧
    (audit_site web url maxPages now fuel).pagesSansH1 = 0 ∧
    (audit_site web url maxPages now fuel).pagesH1Multiple = 0 ∧
    (audit_site web url maxPages now fuel).pagesSansCanonical = 0 ∧
    (audit_site web url maxPages now fuel).pagesNoindex = 0 ∧
    (audit_site web url maxPages now fuel).motsMoyenParPage = 0 ∧
    (audit_site web url maxPages now fuel).pagesVides = 0 ∧
    (audit_site web url maxPages now fuel).ratioTexteHtml = 0 ∧
    (audit_site web url maxPages now fuel).cmsDetecte = none := by
  unfold audit_site at h ⊢
  by_cases h0 : (crawlLoop web maxPages fuel (initAccum (ensureHttp url))).pagesCrawled
      = 0
  · rw [if_pos (by simpa using h0)]
    exact ⟨rfl, rfl, rfl, rfl, rfl, rfl, rfl, rfl, rfl, rfl, rfl, rfl, rfl,
      rfl, rfl, rfl, rfl, rfl, rfl, rfl, rfl, rfl⟩
  · rw [if_neg (by simpa using h0)] at h
    exact absurd h h0

/-- C3 witness: the amended theorem applied at a concrete unreachable site. -/
theorem c3_witness :
    (audit_site (fun _ => none) "https://b.fr" 5 0 9).auditErreur =
        some "Aucune page accessible" ∧
    (audit_site (fun _ => none) "https://b.fr" 5 0 9).profondeurMax = 0 ∧
    (audit_site (fun _ => none) "https://b.fr" 5 0 9).hasBlog = false ∧
    (audit_site (fun _ => none) "https://b.fr" 5 0 9).blogUrl = none ∧
    (audit_site (fun _ => none) "https://b.fr" 5 0 9).hasRss = false ∧
    (audit_site (fun _ => none) "https://b.fr" 5 0 9).blogStatus = "absent" ∧
    (audit_site (fun _ => none) "https://b.fr" 5 0 9).derniereMajBlog = none ∧
    (audit_site (fun _ => none) "https://b.fr" 5 0 9).frequencePublication = none ∧
    (audit_site (fun _ => none) "https://b.fr" 5 0 9).derniereDate = none ∧
    (audit_site (fun _ => none) "https://b.fr" 5 0 9).activiteStatus = "inconnu" ∧
    (audit_site (fun _ => none) "https://b.fr" 5 0 9).pagesSansTitle = 0 ∧
    (audit_site (fun _ => none) "https://b.fr" 5 0 9).pagesTitleCourt = 0 ∧
    (audit_site (fun _ => none) "https://b.fr" 5 0 9).titlesDupliques = 0 ∧
    (audit_site (fun _ => none) "https://b.fr" 5 0 9).pagesSansMetaDesc = 0 ∧
    (audit_site (fun _ => none) "https://b.fr" 5 0 9).pagesSansH1 = 0 ∧
    (audit_site (fun _ => none) "https://b.fr" 5 0 9).pagesH1Multiple = 0 ∧
    (audit_site (fun _ => none) "https://b.fr" 5 0 9).pagesSansCanonical = 0 ∧
    (audit_site (fun _ => none) "https://b.fr" 5 0 9).pagesNoindex = 0 ∧
    (audit_site (fun _ => none) "https://b.fr" 5 0 9).motsMoyenParPage = 0 ∧
    (audit_site (fun _ => none) "https://b.fr" 5 0 9).pagesVides = 0 ∧
    (audit_site (fun _ => none) "https://b.fr" 5 0 9).ratioTexteHtml = 0 ∧
    (audit_site (fun _ => none) "https://b.fr" 5 0 9).cmsDetecte = none :=
  c3_zero_pages_defaults (fun _ => none) "https://b.fr" 5 0 9 (by decide)

/-! ## C7 — activity status conservatism -/

theorem computeActivity_parsed (bl : List String) :
    (if bl.isEmpty then [] else bl.filterMap parseDate) = bl.filterMap parseDate := by
  cases bl with
  | nil => simp
  | cons a t => simp

theorem computeActivity_cases (now : Int) (hb : Bool) (bl al : List String) :
    ((computeActivity now hb bl al).1 = "actif" →
      hb = true ∧ bl.filterMap parseDate ≠ []) ∧
    (bl.filterMap parseDate = [] →
      (computeActivity now hb bl al).1 = "inconnu" ∨
      (computeActivity now hb bl al).1 = "semi-actif" ∨
      (computeActivity now hb bl al).1 = "abandonné") := by
  simp only [computeActivity, computeActivity_parsed]
  split_ifs with h1 h2 h3 h4 h5
  all_goals dsimp only
  · refine ⟨fun _ => ?_, fun hnil => ?_⟩
    · rw [Bool.and_eq_true] at h1
      refine ⟨h1.1, fun hnil => ?_⟩
      have hne := h1.2
      rw [hnil] at hne
      simp at hne
    · rw [Bool.and_eq_true] at h1
      have hne := h1.2
      rw [hnil] at hne
      simp at hne
  · refine ⟨fun hco => absurd hco (by decide), fun hnil => ?_⟩
    rw [Bool.and_eq_true] at h1
    have hne := h1.2
    rw [hnil] at hne
    simp at hne
  · refine ⟨fun hco => absurd hco (by decide), fun hnil => ?_⟩
    rw [Bool.and_eq_true] at h1
    have hne := h1.2
    rw [hnil] at hne
    simp at hne
  · exact ⟨fun hco => absurd hco (by decide), fun _ => Or.inr (Or.inl rfl)⟩
  · exact ⟨fun hco => absurd hco (by decide), fun _ => Or.inr (Or.inr rfl)⟩
  · exact ⟨fun hco => absurd hco (by decide), fun _ => Or.inl rfl⟩

/-- C7: for every aggregation, `activite_status` is "actif" only when the
final blog flag is set and at least one date collected from a blog-flagged
page parses to a valid date; when no blog date parses (only generic
site-wide dates, or none), the status is capped at "inconnu", "semi-actif"
or "abandonné" — never "actif". -/
theorem c7_activity_requires_blog_dates (web : Web) (now : Int)
    (robots sitemap : Bool) (st : Accum) :
    ((postCrawl web now robots sitemap st).activiteStatus = "actif" →
      ∃ d ∈ st.blogDates, (parseDate d).isSome) ∧
    (st.blogDates.filterMap parseDate = [] →
      (postCrawl web now robots sitemap st).activiteStatus = "inconnu" ∨
      (postCrawl web now robots sitemap st).activiteStatus = "semi-actif" ∨
      (postCrawl web now robots sitemap st).activiteStatus = "abandonné") := by
  have hact : (postCrawl web now robots sitemap st).activiteStatus =
      (computeActivity now (applyBlogFallbacks web st).1 st.blogDates
        st.allDates).1 := rfl
  rw [hact]
  obtain ⟨h1, h2⟩ := computeActivity_cases now (applyBlogFallbacks web st).1
    st.blogDates st.allDates
  constructor
  · intro hco
    obtain ⟨-, hne⟩ := h1 hco
    have : ∃ d ∈ st.blogDates, parseDate d ≠ none := by
      by_contra hcon
      push_neg at hcon
      exact hne (List.filterMap_eq_nil_iff.mpr (fun a ha => by
        have := hcon a ha
        simpa using this))
    obtain ⟨d, hd, hdn⟩ := this
    exact ⟨d, hd, Option.isSome_iff_ne_none.mpr hdn⟩
  · exact h2

/-- Concrete accumulated state with one recent blog date, for the C7 witness. -/
def c7st : Accum :=
  { visited := ["https://a.fr"], queue := [], fetchSeq := ["https://a.fr"],
    pagesCrawled := 1, profondeurMax := 0, allTitles := ["t"],
    allDates := ["2024-06-01"], blogDates := ["2024-06-01"],
    navBlogCandidate := none, totalWords := 10, totalHtmlBytes := 100,
    totalTextBytes := 10, cmsDetected := none, hasBlog := true,
    blogUrl := some "https://a.fr/blog", hasRss := false, pagesSansTitle := 0,
    pagesTitleCourt := 1, pagesSansMetaDesc := 1, pagesSansH1 := 1,
    pagesH1Multiple := 0, pagesSansCanonical := 1, pagesNoindex := 0,
    pagesVides := 1 }

/-- Concrete accumulated state with no blog date, for the C7 witness. -/
def c7stEmpty : Accum :=
  { c7st with blogDates := [], hasBlog := false, blogUrl := none }

/-- C7 witness: both implications applied at concrete aggregations. -/
theorem c7_witness :
    (∃ d ∈ c7st.blogDates, (parseDate d).isSome) ∧
    ((postCrawl (fun _ => none) (dayNumber 2024 12 1) true true
        c7stEmpty).activiteStatus = "inconnu" ∨
     (postCrawl (fun _ => none) (dayNumber 2024 12 1) true true
        c7stEmpty).activiteStatus = "semi-actif" ∨
     (postCrawl (fun _ => none) (dayNumber 2024 12 1) true true
        c7stEmpty).activiteStatus = "abandonné") :=
  ⟨(c7_activity_requires_blog_dates (fun _ => none) (dayNumber 2024 12 1)
      true true c7st).1 (by decide),
   (c7_activity_requires_blog_dates (fun _ => none) (dayNumber 2024 12 1)
      true true c7stEmpty).2 (by decide)⟩

/-! ## C6 — nav-blog fallback verification -/

theorem verify_iff (web : Web) (c : String) :
    verify_blog_has_content web c = true ↔
      ∃ f, web c = some f ∧ f.status = 200 ∧
        (2 ≤ (extract_dates f.page c).length ∨
          2 ≤ f.page.hrefs.countP isArticleHref) := by
  unfold verify_blog_has_content
  cases hw : web c with
  | none =>
    simp
  | some f =>
    dsimp only
    constructor
    · intro h
      by_cases hst : (f.status == 200) = true
      · rw [if_pos hst] at h
        refine ⟨f, rfl, by simpa using hst, ?_⟩
        by_cases hd : 2 ≤ (extract_dates f.page c).length
        · exact Or.inl hd
        · rw [if_neg hd] at h
          exact Or.inr (by simpa using h)
      · rw [if_neg hst] at h
        exact absurd h (by simp)
    · rintro ⟨f', hf', hst, hcond⟩
      have hff : f' = f := ((Option.some.injEq _ _).mp hf').symm
      subst hff
      rw [if_pos (by simpa using hst)]
      rcases hcond with hd | ha
      · rw [if_pos hd]
      · by_cases hd : 2 ≤ (extract_dates f'.page c).length
        · rw [if_pos hd]
        · rw [if_neg hd]
          simpa using ha

/-- C6 (amended): when no blog was detected by the URL-pattern strategy or
the visited-URL fallback but a nav candidate was recorded, `has_blog` is set
iff the re-fetched candidate returns status 200 and contains at least 2
extracted dates — counted with multiplicity, not necessarily distinct — or
at least 2 article-shaped links; in particular a candidate with 0 dates and
0 article links never sets `has_blog`. -/
theorem c6_nav_blog_verification (web : Web) (now : Int)
    (robots sitemap : Bool) (st : Accum) (c : String)
    (h1 : st.hasBlog = false)
    (h2 : st.visited.find? (fun v =>
      BLOG_URL_PATTERNS.any (fun pat => strContains (strLower v) pat)) = none)
    (h3 : st.navBlogCandidate = some c) :
    ((postCrawl web now robots sitemap st).hasBlog = true ↔
      ∃ f, web c = some f ∧ f.status = 200 ∧
        (2 ≤ (extract_dates f.page c).length ∨
          2 ≤ f.page.hrefs.countP isArticleHref)) := by
  have hres : (postCrawl web now robots sitemap st).hasBlog =
      (applyBlogFallbacks web st).1 := rfl
  have hfb : applyBlogFallbacks web st =
      if verify_blog_has_content web c then (true, some c)
      else (st.hasBlog, st.blogUrl) := by
    unfold applyBlogFallbacks
    rw [h1, h2, h3]
    simp
  rw [hres, hfb]
  cases hv : verify_blog_has_content web c with
  | true =>
    constructor
    · intro _
      exact (verify_iff web c).mp hv
    · intro _
      simp
  | false =>
    rw [if_neg (by simp)]
    rw [h1]
    constructor
    · intro hco
      exact absurd hco (by simp)
    · intro hcond
      have hvv := (verify_iff web c).mpr hcond
      rw [hv] at hvv
      exact absurd hvv (by simp)

/-- Candidate blog page with the same date twice and no article link. -/
def c6page : PageData :=
  { title := "", metaDescOk := false, h1Count := 0, hasCanonical := false,
    noindex := false, words := [], timeTags := ["2024-05-01", "2024-05-01"],
    jsonLdBlocks := [], navBlog := none, hasRssLink := false, links := [],
    hrefs := [] }

def c6web : Web := fun u =>
  if u == "https://a.fr/infos" then
    some { status := 200, contentTypeHtml := true, text := "", page := c6page }
  else none

/-- Accumulated state with only a nav-blog candidate recorded. -/
def c6st : Accum :=
  { visited := ["https://a.fr"], queue := [], fetchSeq := ["https://a.fr"],
    pagesCrawled := 1, profondeurMax := 0, allTitles := ["t"], allDates := [],
    blogDates := [], navBlogCandidate := some "https://a.fr/infos",
    totalWords := 10, totalHtmlBytes := 100, totalTextBytes := 10,
    cmsDetected := none, hasBlog := false, blogUrl := none, hasRss := false,
    pagesSansTitle := 0, pagesTitleCourt := 1, pagesSansMetaDesc := 1,
    pagesSansH1 := 1, pagesH1Multiple := 0, pagesSansCanonical := 1,
    pagesNoindex := 0, pagesVides := 1 }

/-- C6 counterexample: the candidate page carries the same date twice — only
1 distinct date — and 0 article-shaped links, yet `has_blog` is set: the
code counts dates with multiplicity, not the claimed "distinct" dates. -/
theorem c6_counterexample :
    (postCrawl c6web 0 true true c6st).hasBlog = true ∧
    (extract_dates c6page "https://a.fr/infos").dedup.length = 1 ∧
    c6page.hrefs.countP isArticleHref = 0 := by
  decide

/-- C6 witness: the amended iff applied at a concrete crawl state whose
candidate page holds two article-shaped links. -/
def c6wpage : PageData :=
  { title := "", metaDescOk := false, h1Count := 0, hasCanonical := false,
    noindex := false, words := [], timeTags := [], jsonLdBlocks := [],
    navBlog := none, hasRssLink := false, links := [],
    hrefs := ["/article/a", "/post/b"] }

def c6wweb : Web := fun u =>
  if u == "https://a.fr/infos" then
    some { status := 200, contentTypeHtml := true, text := "", page := c6wpage }
  else none

theorem c6_witness :
    (postCrawl c6wweb 0 true true c6st).hasBlog = true :=
  (c6_nav_blog_verification c6wweb 0 true true c6st "https://a.fr/infos"
      rfl (by decide) rfl).mpr
    ⟨{ status := 200, contentTypeHtml := true, text := "", page := c6wpage },
      by decide, rfl, Or.inr (by decide)⟩

/-! ## C9 — aggregation determinism -/

/-- Concrete crawl state with a pending nav-blog candidate, for C9. -/
def c9st : Accum :=
  { c6st with navBlogCandidate := some "https://a.fr/candidate" }

def c9webC : Web := fun u =>
  if u == "https://a.fr/candidate" then
    some { status := 200, contentTypeHtml := true, text := "", page := c6page }
  else none

def c9webD : Web := fun _ => none

/-- C9 counterexample: two aggregation runs over the very same accumulated
per-page data and the same "now" — but under different network responses
for the nav-candidate re-fetch — produce different `has_blog` and
`blog_url`: the post-crawl step is not a pure function of the accumulated
data because the nav-blog fallback performs a network GET. -/
theorem c9_counterexample :
    (postCrawl c9webC 0 true true c9st).hasBlog = true ∧
    (postCrawl c9webD 0 true true c9st).hasBlog = false ∧
    (postCrawl c9webC 0 true true c9st).blogUrl = some "https://a.fr/candidate" ∧
    (postCrawl c9webD 0 true true c9st).blogUrl = none := by
  decide

/-- C9 (amended): the aggregation is deterministic once, in addition to the
accumulated data and the single "now", the fetch outcome of the recorded
nav-blog candidate is fixed: two runs whose networks agree on that one URL
yield identical results in every field; that fetch is the aggregation's
only external dependence. -/
theorem c9_aggregation_determinism (web web' : Web) (now : Int)
    (robots sitemap : Bool) (st : Accum)
    (h : ∀ c, st.navBlogCandidate = some c → web c = web' c) :
    postCrawl web now robots sitemap st = postCrawl web' now robots sitemap st := by
  have hfb : applyBlogFallbacks web st = applyBlogFallbacks web' st := by
    unfold applyBlogFallbacks
    cases hn : st.navBlogCandidate with
    | none => rfl
    | some c =>
      have hw : verify_blog_has_content web c = verify_blog_has_content web' c := by
        unfold verify_blog_has_content
        rw [h c hn]
      dsimp only
      rw [hw]
  unfold postCrawl
  rw [hfb]

/-- Crawl state without a nav candidate, for the C9 witness. -/
def c9stNone : Accum :=
  { c6st with navBlogCandidate := none }

/-- C9 witness: the determinism theorem applied at a concrete state with no
nav candidate and two different networks. -/
theorem c9_witness :
    postCrawl (fun _ => none) 0 true true c9stNone
      = postCrawl c9webC 0 true true c9stNone := by
  have hcand : ∀ c, c9stNone.navBlogCandidate = some c →
      (fun _ => (none : Option Fetched)) c = c9webC c := by
    intro c hc
    rw [show c9stNone.navBlogCandidate = none from rfl] at hc
    cases hc
  exact c9_aggregation_determinism (fun _ => none) c9webC 0 true true c9stNone hcand

section SanityChecks

example : parseDate "2024-01-08" = (parseDate "2024-01-01").map (· + 7) := by decide
example : parseDate "2024/03/01" = (parseDate "2024-02-28").map (· + 2) := by decide
example : parseDate "2023-03-01" = (parseDate "2023-02-28").map (· + 1) := by decide
example : parseDate "2024-02-31" = none := by decide
example : searchDate "le 2024-01/15 ici" = some "2024-01/15" := by decide
example : searchDate "2024-13-01" = none := by decide
example : detect_cms "<html>... wp-content ...</html>" = some "WordPress" := by decide
example : detect_cms "<html>plain</html>" = none := by decide
example :
    compute_publication_frequency
      [dayNumber 2024 1 1, dayNumber 2024 1 8, dayNumber 2024 1 15]
      = some "hebdomadaire" := by with_unfolding_all decide
example :
    compute_publication_frequency
      [dayNumber 2022 1 1, dayNumber 2023 6 1, dayNumber 2024 1 1]
      = some "rare" := by with_unfolding_all decide
example : compute_publication_frequency [dayNumber 2024 1 1] = none := by decide

end SanityChecks

end Prospection
